import Mathlib

/-!
Shallow embedding of the platform-mc orchestration core of the pldm
repository (src/platform-mc/manager.hpp and src/platform-mc/sensor_manager.hpp),
together with theorems checking the natural-language specification against it.

C++ `std::map` fields are embedded as association lists with first-match
lookup; `size_t` arithmetic is embedded as natural-number arithmetic modulo
2^64 where the source can wrap. Collaborators whose bodies are not part of
the given sources (TerminusManager, EventManager internals, the bodies of
SensorManager::startPolling / disableTerminusSensors / startSensorPollTimer)
are modelled from the specification's contracts and carry doc comments
saying so.
-/

namespace PldmPlatformMc

/-- Association-list lookup, first match wins (embeds `std::map` find). -/
def alFind {α : Type} (m : List (Nat × α)) (k : Nat) : Option α :=
  match m with
  | [] => none
  | (k', v) :: rest => if k' = k then some v else alFind rest k

/-- Association-list membership (embeds `std::map::contains`). -/
def alContains {α : Type} (m : List (Nat × α)) (k : Nat) : Bool :=
  (alFind m k).isSome

/-- Association-list insert-or-assign (embeds `map[k] = v`): replaces the
first binding of `k`, or appends a new binding when absent. -/
def alInsert {α : Type} (m : List (Nat × α)) (k : Nat) (v : α) :
    List (Nat × α) :=
  match m with
  | [] => [(k, v)]
  | (k', v') :: rest =>
      if k' = k then (k, v) :: rest else (k', v') :: alInsert rest k v

/-- Association-list in-place modification of the first binding of `k`
(absent key: unchanged). -/
def alModify {α : Type} (m : List (Nat × α)) (k : Nat) (f : α → α) :
    List (Nat × α) :=
  match m with
  | [] => []
  | (k', v') :: rest =>
      if k' = k then (k, f v') :: rest else (k', v') :: alModify rest k f

/-- `size_t` has 64 bits on the target platform. -/
def SIZE_MOD : Nat := 2 ^ 64

/-- `size_t` subtraction `a - b`: wraps modulo 2^64 when `b > a`, exactly as
the unsigned machine subtraction in the source does. -/
def sizeSub (a b : Nat) : Nat :=
  (a % SIZE_MOD + (SIZE_MOD - b % SIZE_MOD)) % SIZE_MOD

/- PLDM protocol constants, from libpldm headers included by the source. -/

/-- libpldm completion code `PLDM_SUCCESS`. -/
def PLDM_SUCCESS : Nat := 0

/-- libpldm completion code `PLDM_ERROR_UNSUPPORTED_PLDM_CMD`, the defined
"unsupported" code returned for an unregistered event class. -/
def PLDM_ERROR_UNSUPPORTED_PLDM_CMD : Nat := 5

/-- libpldm event class `PLDM_SENSOR_EVENT`. -/
def PLDM_SENSOR_EVENT : Nat := 0x00

/-- libpldm event class `PLDM_MESSAGE_POLL_EVENT`. -/
def PLDM_MESSAGE_POLL_EVENT : Nat := 0x05

/-- libpldm event class `PLDM_CPER_EVENT`. -/
def PLDM_CPER_EVENT : Nat := 0x07

/-- libpldm `PLDM_PLATFORM_EVENT_ID_NULL`: the null event id used by the
push-style handlers. -/
def PLDM_PLATFORM_EVENT_ID_NULL : Nat := 0

/-- A numeric sensor owned by a terminus. `reading = none` is the
NaN/unavailable marker set by `markUnavailable`. -/
structure Sensor where
  sensorId : Nat
  reading : Option Int
  deriving DecidableEq, Repr

/-- Mark a sensor unavailable (the sensor's NaN-marking capability). -/
def Sensor.markUnavailable (s : Sensor) : Sensor :=
  { s with reading := none }

/-- One discovered terminus held in the registry (`TerminiMapper` value). -/
structure Terminus where
  sensors : List Sensor
  deriving DecidableEq, Repr

/-- The terminus registry: `TerminiMapper termini`, keyed by TID. -/
abbrev Registry : Type := List (Nat × Terminus)

/-- One recorded call to `EventManager::handlePlatformEvent`: the tuple the
facade forwards into the Event Dispatch Engine. `eventData` holds the bytes
reachable from the passed pointer; `eventDataSize` is the `size_t` length
argument as computed by the caller. -/
structure DispatchedEvent where
  tid : Nat
  eventId : Nat
  eventClass : Nat
  eventData : List Nat
  eventDataSize : Nat
  deriving DecidableEq, Repr

/-- State of the Event Dispatch Engine (`EventManager`) as consumed by the
core: its own availability copy, the registered polled-event handler
outcome per event class, and the log of dispatched events. -/
structure EventManagerState where
  availableState : List (Nat × Bool)
  registeredResult : List (Nat × Nat)
  dispatched : List DispatchedEvent
  deriving DecidableEq, Repr

/-- Modelled from the spec: the body of `EventManager::handlePlatformEvent`
is not under src/ (only its call sites are). Per the §4.3 collaborator
contract it routes the event by class to the registered handlers and
resolves to a completion code, returning the defined "unsupported" code for
an unregistered event class. The model records the dispatched tuple and
returns the registered handler outcome for the class. -/
def EventManagerState.handlePlatformEvent (em : EventManagerState)
    (tid eventId eventClass : Nat) (eventData : List Nat)
    (eventDataSize : Nat) : EventManagerState × Nat :=
  ({ em with dispatched := em.dispatched ++
      [⟨tid, eventId, eventClass, eventData, eventDataSize⟩] },
   (alFind em.registeredResult eventClass).getD PLDM_ERROR_UNSUPPORTED_PLDM_CMD)

/-- Modelled from the spec: the body of `EventManager::updateAvailableState`
is not under src/ (only its call site in `Manager::updateAvailableState`).
Per §3 and §4.2 it is a simple keyed write of the engine's own availability
copy, the exact analogue of `SensorManager::updateAvailableState`. -/
def EventManagerState.updateAvailableState (em : EventManagerState)
    (tid : Nat) (state : Bool) : EventManagerState :=
  { em with availableState := alInsert em.availableState tid state }

/-- State of the Sensor Polling Engine (`SensorManager`): per-TID timers,
per-TID polling-task handles (`none` in the value position is the "running"
marker, `some rc` the latest completion code), its availability copy, and
the round-robin cursors. -/
structure SensorManagerState where
  sensorPollTimers : List (Nat × Bool)
  taskHandles : List (Nat × Option Int)
  availableState : List (Nat × Bool)
  roundRobinSensorItMap : List (Nat × Nat)
  deriving DecidableEq, Repr

/-- `SensorManager::updateAvailableState` (sensor_manager.hpp, inline):
`availableState[tid] = state`. -/
def SensorManagerState.updateAvailableState (sm : SensorManagerState)
    (tid : Nat) (state : Bool) : SensorManagerState :=
  { sm with availableState := alInsert sm.availableState tid state }

/-- `SensorManager::getAvailableState` (sensor_manager.hpp, inline):
returns `false` when the map has no entry for `tid`, otherwise reads
`availableState[tid]`; the `operator[]` read is guarded by `contains`, so
it never inserts. The pair returns the possibly-touched state alongside the
value so that absence of mutation is a provable statement. -/
def SensorManagerState.getAvailableState (sm : SensorManagerState)
    (tid : Nat) : SensorManagerState × Bool :=
  if ¬ alContains sm.availableState tid then
    (sm, false)
  else
    match alFind sm.availableState tid with
    | some v => (sm, v)
    | none => ({ sm with availableState :=
                  alInsert sm.availableState tid false }, false)

/-- Modelled from the spec: the body of `SensorManager::startSensorPollTimer`
is not under src/ (only its declaration). Per §4.2 it arms the recurring
polling timer for `tid` if not already armed; idempotent. -/
def SensorManagerState.startSensorPollTimer (sm : SensorManagerState)
    (tid : Nat) : SensorManagerState :=
  { sm with sensorPollTimers := alInsert sm.sensorPollTimers tid true }

/-- Modelled from the spec: the body of
`SensorManager::disableTerminusSensors` is not under src/ (only its
declaration). Per §4.1 the unavailable transition — whose only
sensor-engine callee this is — "disables (NaNs) all sensors of that TID and
stops its polling timer", and per §4.2 this operation "marks every sensor
of tid unavailable/NaN". The model marks every sensor of `tid` in the
shared registry unavailable and stops the tid's polling timer. -/
def SensorManagerState.disableTerminusSensors (sm : SensorManagerState)
    (termini : Registry) (tid : Nat) : Registry × SensorManagerState :=
  (alModify termini tid
     (fun t => { t with sensors := t.sensors.map Sensor.markUnavailable }),
   { sm with sensorPollTimers := alInsert sm.sensorPollTimers tid false })

/-- Modelled from the spec: the body of `SensorManager::startPolling` is not
under src/ (only its declaration). Per §4.2: "if a task handle already
exists and is marked running for `tid`, this is a no-op. Otherwise launches
the polling task and records its handle as running." The running marker is
the absent completion code (`none`) in the handle pair. -/
def SensorManagerState.startPolling (sm : SensorManagerState) (tid : Nat) :
    SensorManagerState :=
  if alFind sm.taskHandles tid = some none then sm
  else { sm with taskHandles := alInsert sm.taskHandles tid none }

/-- Modelled from the spec: the body of `SensorManager::stopPolling` is not
under src/ (only its declaration). Per §4.2 it cancels the running task for
`tid` if any and disarms/removes the timer. -/
def SensorManagerState.stopPolling (sm : SensorManagerState) (tid : Nat) :
    SensorManagerState :=
  { sm with
      taskHandles := (sm.taskHandles.filter (fun p => p.1 ≠ tid)),
      sensorPollTimers := (sm.sensorPollTimers.filter (fun p => p.1 ≠ tid)) }

/-- A raw inbound PLDM message: the bytes of `request->payload`. -/
structure PldmMsg where
  payload : List Nat
  deriving DecidableEq, Repr

/-- The whole facade state (`Manager`): the registry shared with the
children, the two engines, the endpoint→TID resolution table of the
Terminus Lifecycle Coordinator, and the log of availability notifications
the facade forwards to that coordinator. -/
structure ManagerState where
  termini : Registry
  sensorManager : SensorManagerState
  eventManager : EventManagerState
  tidMap : List (Nat × Nat)
  coordinatorNotifications : List (Nat × Bool)
  deriving DecidableEq, Repr

/-- Modelled from the spec: `TerminusManager::toTid` is a collaborator whose
body is not under src/. Per §2 its contract is
`toTid(endpointAddress) -> Option<TID>`; the model resolves through the
coordinator's endpoint→TID table held in the facade state. -/
def ManagerState.toTid (s : ManagerState) (mctpInfo : Nat) : Option Nat :=
  alFind s.tidMap mctpInfo

/-- Modelled from the spec: `TerminusManager::updateMctpEndpointAvailability`
is a collaborator hook whose body is not under src/. Per §2 it is the
coordinator's availability-change notification hook; the model records each
notification the facade forwards to it. -/
def ManagerState.notifyCoordinator (s : ManagerState) (mctpInfo : Nat)
    (availability : Bool) : ManagerState :=
  { s with coordinatorNotifications :=
      s.coordinatorNotifications ++ [(mctpInfo, availability)] }

/-- `Manager::updateAvailableState` (manager.hpp lines 117-124): when the
registry contains `tid`, propagates the state to both engines; otherwise
does nothing. -/
def ManagerState.updateAvailableState (s : ManagerState) (tid : Nat)
    (state : Bool) : ManagerState :=
  if alContains s.termini tid then
    { s with
        sensorManager := s.sensorManager.updateAvailableState tid state,
        eventManager := s.eventManager.updateAvailableState tid state }
  else s

/-- The resolved-TID cascade of `Manager::updateMctpEndpointAvailability`
(manager.hpp lines 89-101): resolve the endpoint; if resolved, arm the
polling timer (available) or disable the terminus sensors (unavailable),
then propagate the availability to both engines. -/
def ManagerState.availabilityCascade (s : ManagerState) (mctpInfo : Nat)
    (availability : Bool) : ManagerState :=
  match s.toTid mctpInfo with
  | some tid =>
      let s1 :=
        if availability then
          { s with sensorManager := s.sensorManager.startSensorPollTimer tid }
        else
          let p := s.sensorManager.disableTerminusSensors s.termini tid
          { s with termini := p.1, sensorManager := p.2 }
      s1.updateAvailableState tid availability
  | none => s

/-- `Manager::updateMctpEndpointAvailability` (manager.hpp lines 85-103):
the resolved-TID cascade, then — unconditionally, last — the forwarding of
the notification to the Terminus Lifecycle Coordinator (line 102). -/
def ManagerState.updateMctpEndpointAvailability (s : ManagerState)
    (mctpInfo : Nat) (availability : Bool) : ManagerState :=
  (s.availabilityCascade mctpInfo availability).notifyCoordinator
    mctpInfo availability

/-- `Manager::handleSensorEvent` (manager.hpp lines 143-154): points
`eventData` at `request->payload + eventDataOffset`, computes
`eventDataSize = payloadLength - eventDataOffset` in `size_t` arithmetic,
dispatches to the Event Dispatch Engine discarding its completion code, and
returns `PLDM_SUCCESS`. -/
def ManagerState.handleSensorEvent (s : ManagerState) (request : PldmMsg)
    (payloadLength : Nat) (formatVersion tid : Nat) (eventDataOffset : Nat) :
    ManagerState × Nat :=
  let _ := formatVersion
  let eventDataSize := sizeSub payloadLength eventDataOffset
  let eventData := (request.payload.drop eventDataOffset).take eventDataSize
  let p := s.eventManager.handlePlatformEvent tid PLDM_PLATFORM_EVENT_ID_NULL
    PLDM_SENSOR_EVENT eventData eventDataSize
  ({ s with eventManager := p.1 }, PLDM_SUCCESS)

/-- `Manager::handleCperEvent` (manager.hpp lines 166-177): same shape as
`handleSensorEvent` with the `PLDM_CPER_EVENT` class tag. -/
def ManagerState.handleCperEvent (s : ManagerState) (request : PldmMsg)
    (payloadLength : Nat) (formatVersion tid : Nat) (eventDataOffset : Nat) :
    ManagerState × Nat :=
  let _ := formatVersion
  let eventDataSize := sizeSub payloadLength eventDataOffset
  let eventData := (request.payload.drop eventDataOffset).take eventDataSize
  let p := s.eventManager.handlePlatformEvent tid PLDM_PLATFORM_EVENT_ID_NULL
    PLDM_CPER_EVENT eventData eventDataSize
  ({ s with eventManager := p.1 }, PLDM_SUCCESS)

/-- `Manager::handlePldmMessagePollEvent` (manager.hpp lines 189-200): same
shape as `handleSensorEvent` with the `PLDM_MESSAGE_POLL_EVENT` class
tag. -/
def ManagerState.handlePldmMessagePollEvent (s : ManagerState)
    (request : PldmMsg) (payloadLength : Nat) (formatVersion tid : Nat)
    (eventDataOffset : Nat) : ManagerState × Nat :=
  let _ := formatVersion
  let eventDataSize := sizeSub payloadLength eventDataOffset
  let eventData := (request.payload.drop eventDataOffset).take eventDataSize
  let p := s.eventManager.handlePlatformEvent tid PLDM_PLATFORM_EVENT_ID_NULL
    PLDM_MESSAGE_POLL_EVENT eventData eventDataSize
  ({ s with eventManager := p.1 }, PLDM_SUCCESS)

/-- `Manager::handlePolledCperEvent` (manager.hpp lines 221-226): dispatches
with the caller-supplied event id and the CPER class tag and returns the
Event Dispatch Engine's completion code. -/
def ManagerState.handlePolledCperEvent (s : ManagerState) (tid eventId : Nat)
    (eventData : List Nat) (eventDataSize : Nat) : ManagerState × Nat :=
  let p := s.eventManager.handlePlatformEvent tid eventId PLDM_CPER_EVENT
    eventData eventDataSize
  ({ s with eventManager := p.1 }, p.2)

/-- `Manager::startSensorPolling` (manager.hpp lines 107-110): direct
pass-through to the Sensor Polling Engine. -/
def ManagerState.startSensorPolling (s : ManagerState) (tid : Nat) :
    ManagerState :=
  { s with sensorManager := s.sensorManager.startPolling tid }

/-- `Manager::stopSensorPolling` (manager.hpp lines 128-131): direct
pass-through to the Sensor Polling Engine. -/
def ManagerState.stopSensorPolling (s : ManagerState) (tid : Nat) :
    ManagerState :=
  { s with sensorManager := s.sensorManager.stopPolling tid }

/-- The freshly constructed `SensorManager` state: all maps empty. -/
def initSensorManagerState : SensorManagerState :=
  { sensorPollTimers := [], taskHandles := [], availableState := [],
    roundRobinSensorItMap := [] }

/-- `true` iff every sensor of `tid` in the registry carries the
NaN/unavailable marker (vacuously true for an absent TID). -/
def allSensorsUnavailable (r : Registry) (tid : Nat) : Bool :=
  match alFind r tid with
  | some t => t.sensors.all (fun sensor => sensor.reading.isNone)
  | none => true

/-- Number of task handles for `tid` carrying the "running" marker (no
completion code yet). -/
def liveTaskCount (sm : SensorManagerState) (tid : Nat) : Nat :=
  (sm.taskHandles.filter (fun p => p.1 == tid && p.2.isNone)).length

/- Concrete states used by the witness theorems. -/

/-- A terminus with two sensors holding live readings. -/
def sampleTerminus : Terminus :=
  { sensors := [{ sensorId := 1, reading := some 25 },
                { sensorId := 2, reading := some 30 }] }

/-- A facade state with TID 7 discovered (endpoint 20), polling armed, both
engines marked available, and a CPER handler registered that fails with
completion code 3. -/
def sampleState : ManagerState :=
  { termini := [(7, sampleTerminus)],
    sensorManager := { sensorPollTimers := [(7, true)],
                       taskHandles := [(7, some 0)],
                       availableState := [(7, true)],
                       roundRobinSensorItMap := [(7, 1)] },
    eventManager := { availableState := [(7, true)],
                      registeredResult := [(PLDM_CPER_EVENT, 3)],
                      dispatched := [] },
    tidMap := [(20, 7)],
    coordinatorNotifications := [] }

/- Lemmas about the association-list map embedding. -/

theorem alFind_alInsert_self {α : Type} (m : List (Nat × α)) (k : Nat)
    (v : α) : alFind (alInsert m k v) k = some v := by
  induction m with
  | nil => simp [alInsert, alFind]
  | cons p rest ih =>
      obtain ⟨k', v'⟩ := p
      by_cases h : k' = k
      · simp [alInsert, alFind, h]
      · simp [alInsert, alFind, h, ih]

theorem alFind_alInsert_ne {α : Type} (m : List (Nat × α)) (k k' : Nat)
    (v : α) (h : k' ≠ k) : alFind (alInsert m k' v) k = alFind m k := by
  induction m with
  | nil => simp [alInsert, alFind, h]
  | cons p rest ih =>
      obtain ⟨a, b⟩ := p
      by_cases ha : a = k'
      · simp [alInsert, alFind, ha, h]
      · by_cases hb : a = k
        · simp [alInsert, alFind, ha, hb, Ne.symm h]
        · simp [alInsert, alFind, ha, hb, ih]

theorem alFind_alModify_self {α : Type} (m : List (Nat × α)) (k : Nat)
    (f : α → α) : alFind (alModify m k f) k = (alFind m k).map f := by
  induction m with
  | nil => simp [alModify, alFind]
  | cons p rest ih =>
      obtain ⟨a, b⟩ := p
      by_cases h : a = k
      · simp [alModify, alFind, h]
      · simp [alModify, alFind, h, ih]

theorem alContains_alModify_self {α : Type} (m : List (Nat × α)) (k : Nat)
    (f : α → α) : alContains (alModify m k f) k = alContains m k := by
  unfold alContains
  rw [alFind_alModify_self]
  cases alFind m k <;> rfl

theorem memKeys_alInsert {α : Type} (m : List (Nat × α)) (k a : Nat)
    (v : α) :
    a ∈ (alInsert m k v).map Prod.fst ↔ a = k ∨ a ∈ m.map Prod.fst := by
  induction m with
  | nil => simp [alInsert]
  | cons p rest ih =>
      obtain ⟨b, c⟩ := p
      by_cases h : b = k
      · subst h
        simp [alInsert]
      · simp [alInsert, h, ih]
        tauto

theorem nodupKeys_alInsert {α : Type} (m : List (Nat × α)) (k : Nat) (v : α)
    (hnd : (m.map Prod.fst).Nodup) :
    ((alInsert m k v).map Prod.fst).Nodup := by
  induction m with
  | nil => simp [alInsert]
  | cons p rest ih =>
      obtain ⟨b, c⟩ := p
      rw [List.map_cons, List.nodup_cons] at hnd
      by_cases h : b = k
      · subst h
        have heq : alInsert ((b, c) :: rest) b v = (b, v) :: rest := by
          unfold alInsert
          rw [if_pos rfl]
        rw [heq, List.map_cons, List.nodup_cons]
        exact hnd
      · simp only [alInsert, if_neg h, List.map_cons, List.nodup_cons]
        refine ⟨?_, ih hnd.2⟩
        intro hmem
        rcases (memKeys_alInsert rest k b v).1 hmem with h1 | h1
        · exact h h1
        · exact hnd.1 h1

theorem liveFilter_nil_of_absent (m : List (Nat × Option Int)) (k : Nat)
    (h : k ∉ m.map Prod.fst) :
    m.filter (fun p => p.1 == k && p.2.isNone) = [] := by
  induction m with
  | nil => rfl
  | cons p rest ih =>
      obtain ⟨a, b⟩ := p
      simp only [List.map_cons, List.mem_cons, not_or] at h
      rw [List.filter_cons]
      have hcond : (((a, b).1 == k) && (a, b).2.isNone) = false := by
        have ha : (a == k) = false := by
          simp only [beq_eq_false_iff_ne, ne_eq]
          exact fun he => h.1 he.symm
        simp [ha]
      rw [hcond, if_neg Bool.false_ne_true]
      exact ih h.2

theorem liveFilter_length_one (m : List (Nat × Option Int)) (k : Nat)
    (hnd : (m.map Prod.fst).Nodup) (h : alFind m k = some none) :
    (m.filter (fun p => p.1 == k && p.2.isNone)).length = 1 := by
  induction m with
  | nil => simp [alFind] at h
  | cons p rest ih =>
      obtain ⟨a, b⟩ := p
      rw [List.map_cons, List.nodup_cons] at hnd
      by_cases ha : a = k
      · subst ha
        unfold alFind at h
        rw [if_pos rfl] at h
        have hb : b = none := by
          injection h
        subst hb
        rw [List.filter_cons]
        have hcond : (((a, (none : Option Int)).1 == a) &&
            (a, (none : Option Int)).2.isNone) = true := by
          simp
        rw [hcond, if_pos rfl, List.length_cons,
          liveFilter_nil_of_absent rest a hnd.1]
        rfl
      · unfold alFind at h
        rw [if_neg ha] at h
        rw [List.filter_cons]
        have hcond : (((a, b).1 == k) && (a, b).2.isNone) = false := by
          simp [ha]
        rw [hcond, if_neg Bool.false_ne_true]
        exact ih hnd.2 h

theorem sizeSub_eq_sub (a b : Nat) (hb : b ≤ a) (ha : a < SIZE_MOD) :
    sizeSub a b = a - b := by
  have hM : SIZE_MOD = 18446744073709551616 := by norm_num [SIZE_MOD]
  unfold sizeSub
  rw [hM] at ha ⊢
  omega

theorem sensors_unavailable_after_modify (r : Registry) (tid : Nat) :
    allSensorsUnavailable
      (alModify r tid
        (fun t => { t with sensors := t.sensors.map Sensor.markUnavailable }))
      tid = true := by
  unfold allSensorsUnavailable
  rw [alFind_alModify_self]
  cases hE : alFind r tid with
  | none => rfl
  | some t => simp [Sensor.markUnavailable]

theorem updateAvailableState_termini (s : ManagerState) (tid : Nat)
    (st : Bool) : (s.updateAvailableState tid st).termini = s.termini := by
  unfold ManagerState.updateAvailableState
  split <;> rfl

theorem updateAvailableState_timers (s : ManagerState) (tid : Nat)
    (st : Bool) :
    (s.updateAvailableState tid st).sensorManager.sensorPollTimers =
      s.sensorManager.sensorPollTimers := by
  unfold ManagerState.updateAvailableState SensorManagerState.updateAvailableState
  split <;> rfl

theorem updateAvailableState_notifications (s : ManagerState) (tid : Nat)
    (st : Bool) :
    (s.updateAvailableState tid st).coordinatorNotifications =
      s.coordinatorNotifications := by
  unfold ManagerState.updateAvailableState
  split <;> rfl

theorem cascade_false_resolved (s : ManagerState) (ep tid : Nat)
    (h : s.toTid ep = some tid) :
    s.availabilityCascade ep false =
      ({ s with
          termini := (s.sensorManager.disableTerminusSensors s.termini tid).1,
          sensorManager :=
            (s.sensorManager.disableTerminusSensors s.termini tid).2
        } : ManagerState).updateAvailableState tid false := by
  unfold ManagerState.availabilityCascade
  rw [h]
  rfl

theorem cascade_notifications (s : ManagerState) (ep : Nat) (a : Bool) :
    (s.availabilityCascade ep a).coordinatorNotifications =
      s.coordinatorNotifications := by
  cases hE : s.toTid ep with
  | none => simp [ManagerState.availabilityCascade, hE]
  | some tid =>
      simp only [ManagerState.availabilityCascade, hE]
      rw [updateAvailableState_notifications]
      cases a <;> rfl

/-- C1: the claim says that when `eventDataOffset` exceeds `payloadLength`
the push-style handlers return a malformed-input error and perform no
dispatch. The code does neither: at the spec's own P5 input
(`payloadLength = 10`, `eventDataOffset = 12`), `handleSensorEvent` wraps
the `size_t` subtraction to `2^64 - 2`, dispatches to the Event Dispatch
Engine with that huge size, and returns `PLDM_SUCCESS`. -/
theorem C1_handleSensorEvent_no_bounds_check :
    (sampleState.handleSensorEvent { payload := List.replicate 10 0 }
        10 1 7 12).2 = PLDM_SUCCESS ∧
    (sampleState.handleSensorEvent { payload := List.replicate 10 0 }
        10 1 7 12).1.eventManager.dispatched =
      [{ tid := 7, eventId := PLDM_PLATFORM_EVENT_ID_NULL,
         eventClass := PLDM_SENSOR_EVENT, eventData := [],
         eventDataSize := 2 ^ 64 - 2 }] :=
  ⟨rfl, rfl⟩

/-- C2: for every endpoint resolving to a known TID, calling
`updateMctpEndpointAvailability` with `available = false` marks all sensors
of that TID unavailable and stops that TID's polling timer. -/
theorem C2_unavailable_disables_sensors_and_stops_timer (s : ManagerState)
    (ep tid : Nat) (h : s.toTid ep = some tid) :
    allSensorsUnavailable
      (s.updateMctpEndpointAvailability ep false).termini tid = true ∧
    alFind (s.updateMctpEndpointAvailability ep false).sensorManager.sensorPollTimers
      tid = some false := by
  have hc := cascade_false_resolved s ep tid h
  have ht : (s.updateMctpEndpointAvailability ep false).termini =
      (s.availabilityCascade ep false).termini := rfl
  have hm : (s.updateMctpEndpointAvailability ep false).sensorManager =
      (s.availabilityCascade ep false).sensorManager := rfl
  rw [ht, hm, hc, updateAvailableState_termini, updateAvailableState_timers]
  constructor
  · show allSensorsUnavailable
      (alModify s.termini tid
        (fun t => { t with sensors := t.sensors.map Sensor.markUnavailable }))
      tid = true
    exact sensors_unavailable_after_modify s.termini tid
  · show alFind (alInsert s.sensorManager.sensorPollTimers tid false) tid =
      some false
    exact alFind_alInsert_self _ _ _

/-- C2 witness: endpoint 20 resolves to TID 7 in the sample state; after the
unavailable transition all of TID 7's sensors are NaN-marked and its timer
is stopped. -/
theorem C2_witness :
    sampleState.toTid 20 = some 7 ∧
    (allSensorsUnavailable
        (sampleState.updateMctpEndpointAvailability 20 false).termini 7 =
        true ∧
      alFind (sampleState.updateMctpEndpointAvailability 20
          false).sensorManager.sensorPollTimers 7 = some false) :=
  ⟨rfl, C2_unavailable_disables_sensors_and_stops_timer sampleState 20 7 rfl⟩

/-- C3: each push-style event handler returns `PLDM_SUCCESS` for every
input and every internal state — in particular also when the registered
handler the Event Dispatch Engine routes to fails internally; the handler's
completion code is never reflected in the return value. -/
theorem C3_push_handlers_always_report_success (s : ManagerState)
    (request : PldmMsg) (payloadLength formatVersion tid eventDataOffset : Nat) :
    (s.handleSensorEvent request payloadLength formatVersion tid
        eventDataOffset).2 = PLDM_SUCCESS ∧
    (s.handleCperEvent request payloadLength formatVersion tid
        eventDataOffset).2 = PLDM_SUCCESS ∧
    (s.handlePldmMessagePollEvent request payloadLength formatVersion tid
        eventDataOffset).2 = PLDM_SUCCESS :=
  ⟨rfl, rfl, rfl⟩

/-- C4: `updateAvailableState` on a TID absent from the registry is a
complete no-op: the whole facade state — both engines' availability
included — is unchanged, and the call returns without error. -/
theorem C4_updateAvailableState_unknown_tid_noop (s : ManagerState)
    (tid : Nat) (state : Bool) (h : alContains s.termini tid = false) :
    s.updateAvailableState tid state = s := by
  unfold ManagerState.updateAvailableState
  rw [h]
  rfl

/-- C4 witness: TID 99 is not in the sample registry and the update leaves
the state untouched. -/
theorem C4_witness :
    alContains sampleState.termini 99 = false ∧
    sampleState.updateAvailableState 99 true = sampleState :=
  ⟨rfl, C4_updateAvailableState_unknown_tid_noop sampleState 99 true rfl⟩

/-- C5: after `updateMctpEndpointAvailability(ep, false)` for an endpoint
resolving to a TID present in the registry, the Sensor Polling Engine's and
the Event Dispatch Engine's stored availability for that TID both equal
`false`, and every sensor of that TID is marked unavailable. -/
theorem C5_availability_convergence (s : ManagerState) (ep tid : Nat)
    (h : s.toTid ep = some tid) (h2 : alContains s.termini tid = true) :
    alFind (s.updateMctpEndpointAvailability ep
        false).sensorManager.availableState tid = some false ∧
    alFind (s.updateMctpEndpointAvailability ep
        false).eventManager.availableState tid = some false ∧
    allSensorsUnavailable
      (s.updateMctpEndpointAvailability ep false).termini tid = true := by
  have hc := cascade_false_resolved s ep tid h
  have hm : (s.updateMctpEndpointAvailability ep false).sensorManager =
      (s.availabilityCascade ep false).sensorManager := rfl
  have he : (s.updateMctpEndpointAvailability ep false).eventManager =
      (s.availabilityCascade ep false).eventManager := rfl
  have ht : (s.updateMctpEndpointAvailability ep false).termini =
      (s.availabilityCascade ep false).termini := rfl
  rw [hm, he, ht, hc]
  have hcontains : alContains
      ((s.sensorManager.disableTerminusSensors s.termini tid).1) tid = true := by
    show alContains (alModify s.termini tid
      (fun t => { t with sensors := t.sensors.map Sensor.markUnavailable }))
      tid = true
    rw [alContains_alModify_self]
    exact h2
  unfold ManagerState.updateAvailableState
  rw [show alContains
      ({ s with
          termini := (s.sensorManager.disableTerminusSensors s.termini tid).1,
          sensorManager :=
            (s.sensorManager.disableTerminusSensors s.termini tid).2
        } : ManagerState).termini tid =
      alContains ((s.sensorManager.disableTerminusSensors s.termini tid).1) tid
    from rfl, hcontains, if_pos rfl]
  refine ⟨?_, ?_, ?_⟩
  · show alFind (alInsert
      ((s.sensorManager.disableTerminusSensors s.termini tid).2).availableState
      tid false) tid = some false
    exact alFind_alInsert_self _ _ _
  · show alFind (alInsert s.eventManager.availableState tid false) tid =
      some false
    exact alFind_alInsert_self _ _ _
  · show allSensorsUnavailable
      (alModify s.termini tid
        (fun t => { t with sensors := t.sensors.map Sensor.markUnavailable }))
      tid = true
    exact sensors_unavailable_after_modify s.termini tid

/-- C5 witness: endpoint 20 resolves to TID 7, which is in the sample
registry; after the unavailable transition both engines store `false` for
TID 7 and all its sensors are unavailable. -/
theorem C5_witness :
    sampleState.toTid 20 = some 7 ∧
    alContains sampleState.termini 7 = true ∧
    (alFind (sampleState.updateMctpEndpointAvailability 20
        false).sensorManager.availableState 7 = some false ∧
     alFind (sampleState.updateMctpEndpointAvailability 20
        false).eventManager.availableState 7 = some false ∧
     allSensorsUnavailable
       (sampleState.updateMctpEndpointAvailability 20 false).termini 7 =
       true) :=
  ⟨rfl, rfl, C5_availability_convergence sampleState 20 7 rfl rfl⟩

/-- C6: each push-style handler forwards to the Event Dispatch Engine the
tuple `(tid, eventId = the null event id, its event-class tag, the event
data sliced from the request payload at `eventDataOffset` with size
`payloadLength - eventDataOffset`)` — here under the well-formed-slice
hypotheses `eventDataOffset ≤ payloadLength < 2^64`, where the `size_t`
subtraction equals the plain difference. -/
theorem C6_push_handlers_forward_tuple (s : ManagerState)
    (request : PldmMsg) (payloadLength formatVersion tid eventDataOffset : Nat)
    (hoff : eventDataOffset ≤ payloadLength)
    (hlen : payloadLength < SIZE_MOD) :
    (s.handleSensorEvent request payloadLength formatVersion tid
        eventDataOffset).1.eventManager.dispatched =
      s.eventManager.dispatched ++
        [{ tid := tid, eventId := PLDM_PLATFORM_EVENT_ID_NULL,
           eventClass := PLDM_SENSOR_EVENT,
           eventData := (request.payload.drop eventDataOffset).take
             (payloadLength - eventDataOffset),
           eventDataSize := payloadLength - eventDataOffset }] ∧
    (s.handleCperEvent request payloadLength formatVersion tid
        eventDataOffset).1.eventManager.dispatched =
      s.eventManager.dispatched ++
        [{ tid := tid, eventId := PLDM_PLATFORM_EVENT_ID_NULL,
           eventClass := PLDM_CPER_EVENT,
           eventData := (request.payload.drop eventDataOffset).take
             (payloadLength - eventDataOffset),
           eventDataSize := payloadLength - eventDataOffset }] ∧
    (s.handlePldmMessagePollEvent request payloadLength formatVersion tid
        eventDataOffset).1.eventManager.dispatched =
      s.eventManager.dispatched ++
        [{ tid := tid, eventId := PLDM_PLATFORM_EVENT_ID_NULL,
           eventClass := PLDM_MESSAGE_POLL_EVENT,
           eventData := (request.payload.drop eventDataOffset).take
             (payloadLength - eventDataOffset),
           eventDataSize := payloadLength - eventDataOffset }] := by
  have hs := sizeSub_eq_sub payloadLength eventDataOffset hoff hlen
  unfold ManagerState.handleSensorEvent ManagerState.handleCperEvent
    ManagerState.handlePldmMessagePollEvent
    EventManagerState.handlePlatformEvent
  rw [hs]
  exact ⟨rfl, rfl, rfl⟩

/-- C6 witness: a 10-byte payload with offset 3 forwards the 7-byte slice
with the matching class tags. -/
theorem C6_witness :
    (3 : Nat) ≤ 10 ∧ (10 : Nat) < SIZE_MOD ∧
    ((sampleState.handleSensorEvent
        { payload := [0, 1, 2, 3, 4, 5, 6, 7, 8, 9] } 10 1 7
        3).1.eventManager.dispatched =
      sampleState.eventManager.dispatched ++
        [{ tid := 7, eventId := PLDM_PLATFORM_EVENT_ID_NULL,
           eventClass := PLDM_SENSOR_EVENT,
           eventData := (([0, 1, 2, 3, 4, 5, 6, 7, 8, 9] : List Nat).drop
             3).take (10 - 3),
           eventDataSize := 10 - 3 }] ∧
     (sampleState.handleCperEvent
        { payload := [0, 1, 2, 3, 4, 5, 6, 7, 8, 9] } 10 1 7
        3).1.eventManager.dispatched =
      sampleState.eventManager.dispatched ++
        [{ tid := 7, eventId := PLDM_PLATFORM_EVENT_ID_NULL,
           eventClass := PLDM_CPER_EVENT,
           eventData := (([0, 1, 2, 3, 4, 5, 6, 7, 8, 9] : List Nat).drop
             3).take (10 - 3),
           eventDataSize := 10 - 3 }] ∧
     (sampleState.handlePldmMessagePollEvent
        { payload := [0, 1, 2, 3, 4, 5, 6, 7, 8, 9] } 10 1 7
        3).1.eventManager.dispatched =
      sampleState.eventManager.dispatched ++
        [{ tid := 7, eventId := PLDM_PLATFORM_EVENT_ID_NULL,
           eventClass := PLDM_MESSAGE_POLL_EVENT,
           eventData := (([0, 1, 2, 3, 4, 5, 6, 7, 8, 9] : List Nat).drop
             3).take (10 - 3),
           eventDataSize := 10 - 3 }]) :=
  ⟨by norm_num, by norm_num [SIZE_MOD],
   C6_push_handlers_forward_tuple sampleState
     { payload := [0, 1, 2, 3, 4, 5, 6, 7, 8, 9] } 10 1 7 3 (by norm_num)
     (by norm_num [SIZE_MOD])⟩

/-- C7: at most one live polling task per TID — calling `startPolling`
twice in a row with no intervening stop leaves the state of the single
first launch (second call is a no-op) and exactly one running task handle
for the TID. -/
theorem C7_startPolling_idempotent (sm : SensorManagerState) (tid : Nat)
    (hnd : (sm.taskHandles.map Prod.fst).Nodup) :
    (sm.startPolling tid).startPolling tid = sm.startPolling tid ∧
    liveTaskCount ((sm.startPolling tid).startPolling tid) tid = 1 := by
  have hfind : alFind (sm.startPolling tid).taskHandles tid = some none := by
    unfold SensorManagerState.startPolling
    by_cases h : alFind sm.taskHandles tid = some none
    · rw [if_pos h]
      exact h
    · rw [if_neg h]
      show alFind (alInsert sm.taskHandles tid none) tid = some none
      exact alFind_alInsert_self _ _ _
  have hnd1 : ((sm.startPolling tid).taskHandles.map Prod.fst).Nodup := by
    unfold SensorManagerState.startPolling
    by_cases h : alFind sm.taskHandles tid = some none
    · rw [if_pos h]
      exact hnd
    · rw [if_neg h]
      exact nodupKeys_alInsert _ _ _ hnd
  have hsecond : ∀ t : SensorManagerState,
      alFind t.taskHandles tid = some none → t.startPolling tid = t := by
    intro t htf
    unfold SensorManagerState.startPolling
    rw [if_pos htf]
  refine ⟨hsecond _ hfind, ?_⟩
  rw [hsecond _ hfind]
  exact liveFilter_length_one _ _ hnd1 hfind

/-- C7 witness: in the sample sensor-manager state (whose TID 7 task has
already completed with code 0) two consecutive starts yield one live task
and the second call is a no-op. -/
theorem C7_witness :
    (sampleState.sensorManager.taskHandles.map Prod.fst).Nodup ∧
    ((sampleState.sensorManager.startPolling 7).startPolling 7 =
        sampleState.sensorManager.startPolling 7 ∧
      liveTaskCount ((sampleState.sensorManager.startPolling 7).startPolling
        7) 7 = 1) :=
  ⟨by decide, C7_startPolling_idempotent sampleState.sensorManager 7
    (by decide)⟩

/-- C8: `handlePolledCperEvent` dispatches with the caller-supplied event
id and the CPER class tag and returns the completion code produced by that
dispatch. -/
theorem C8_handlePolledCperEvent_returns_dispatch_code (s : ManagerState)
    (tid eventId : Nat) (eventData : List Nat) (eventDataSize : Nat) :
    (s.handlePolledCperEvent tid eventId eventData eventDataSize).2 =
      (s.eventManager.handlePlatformEvent tid eventId PLDM_CPER_EVENT
        eventData eventDataSize).2 ∧
    (s.handlePolledCperEvent tid eventId eventData
        eventDataSize).1.eventManager.dispatched =
      s.eventManager.dispatched ++
        [{ tid := tid, eventId := eventId, eventClass := PLDM_CPER_EVENT,
           eventData := eventData, eventDataSize := eventDataSize }] :=
  ⟨rfl, rfl⟩

/-- C9: a terminus is unavailable by default — while `updateAvailableState`
has never recorded an entry for `tid`, `getAvailableState tid` returns
`false` without modifying the stored availability map; updates to other
TIDs keep the entry absent, and the fresh engine state has no entry. -/
theorem C9_getAvailableState_default_false (sm : SensorManagerState)
    (tid tid' : Nat) (state : Bool)
    (h : alFind sm.availableState tid = none) (hne : tid' ≠ tid) :
    (sm.getAvailableState tid).1 = sm ∧
    (sm.getAvailableState tid).2 = false ∧
    alFind (sm.updateAvailableState tid' state).availableState tid = none ∧
    alFind initSensorManagerState.availableState tid = none := by
  have hc : alContains sm.availableState tid = false := by
    unfold alContains
    rw [h]
    rfl
  unfold SensorManagerState.getAvailableState
  rw [hc]
  refine ⟨by simp, by simp, ?_, rfl⟩
  show alFind (alInsert sm.availableState tid' state) tid = none
  rw [alFind_alInsert_ne _ _ _ _ hne]
  exact h

/-- C9 witness: TID 5 has never been recorded in the sample engine state;
the query returns `false` and leaves the state alone, and an update for
TID 7 keeps TID 5 absent. -/
theorem C9_witness :
    alFind sampleState.sensorManager.availableState 5 = none ∧
    (7 : Nat) ≠ 5 ∧
    ((sampleState.sensorManager.getAvailableState 5).1 =
        sampleState.sensorManager ∧
      (sampleState.sensorManager.getAvailableState 5).2 = false ∧
      alFind (sampleState.sensorManager.updateAvailableState 7
        true).availableState 5 = none ∧
      alFind initSensorManagerState.availableState 5 = none) :=
  ⟨rfl, by decide,
   C9_getAvailableState_default_false sampleState.sensorManager 5 7 true rfl
     (by decide)⟩

/-- C10: every `updateMctpEndpointAvailability` call forwards the
`(endpoint, availability)` notification to the Terminus Lifecycle
Coordinator exactly once — resolved or not — and does so as the final step,
after the resolved-TID polling-engine cascade. -/
theorem C10_coordinator_notified_once_after_cascade (s : ManagerState)
    (ep : Nat) (a : Bool) :
    (s.updateMctpEndpointAvailability ep a).coordinatorNotifications =
      s.coordinatorNotifications ++ [(ep, a)] ∧
    s.updateMctpEndpointAvailability ep a =
      (s.availabilityCascade ep a).notifyCoordinator ep a := by
  constructor
  · show ((s.availabilityCascade ep a).notifyCoordinator ep
      a).coordinatorNotifications = s.coordinatorNotifications ++ [(ep, a)]
    unfold ManagerState.notifyCoordinator
    rw [show ({ s.availabilityCascade ep a with coordinatorNotifications :=
        (s.availabilityCascade ep a).coordinatorNotifications ++
          [(ep, a)] } : ManagerState).coordinatorNotifications =
      (s.availabilityCascade ep a).coordinatorNotifications ++ [(ep, a)]
      from rfl, cascade_notifications]
  · rfl

end PldmPlatformMc
